import Mathlib

/-!
Verification development for the Pet_Adoption transform-and-incremental-load
pipeline.

The definitions below are a shallow embedding of the two core source files:

* `src/transform/update_clean_csvs_db_aware.py` — the transform: data-quality
  reconciliation (`apply_data_quality_rules`), dimension resolution
  (`pet_types_df`, `breeds_df`, `shelters_df`), fact building (`animals_df`),
  and the file-writing run (`update_clean_csvs_db_aware`).
* `src/load/load_parquet_to_postgres_incremental_v3.py` — the incremental
  loader (`load_incremental`) with its snapshot ledger
  (`snapshot_already_loaded`, `mark_snapshot_loaded`) and upserts
  (`upsert_table`).

Pandas DataFrames are embedded as lists of records; a missing cell (NaN) is
`Option.none`.  Surrogate keys (`uuid.uuid4()` in the source) are modelled by
an ambient injective-by-intention supply `ids : Nat → String`, consumed in the
same order as the source consumes uuid4 calls (types, then breeds, then
shelters).  Runs that interact with the outside world (file saves, database
statements) are modelled with an explicit `fuel` parameter: `fuel` is the
number of source statements the environment lets the run execute before an
exogenous fatal error (I/O failure, lost connection, ...) aborts it; a large
enough `fuel` is a run with no injected failure.
-/

/-- A calendar date, as produced by `pd.to_datetime(...).dt.date`. -/
structure Date where
  year : Nat
  month : Nat
  day : Nat
deriving DecidableEq, Repr

def isLeap (y : Nat) : Bool :=
  (y % 4 == 0 && y % 100 != 0) || (y % 400 == 0)

def daysInMonth (y m : Nat) : Nat :=
  if m == 2 then (if isLeap y then 29 else 28)
  else if m == 4 || m == 6 || m == 9 || m == 11 then 30
  else 31

/-- Python `str.strip()` / pandas `.str.strip()`: drop leading and trailing
whitespace.  (Implemented over the character list so it evaluates inside the
kernel.) -/
def pyStrip (s : String) : String :=
  ⟨((s.data.dropWhile Char.isWhitespace).reverse.dropWhile Char.isWhitespace).reverse⟩

/-- Split a character list at every occurrence of the separator `sep`. -/
def splitOnChar (sep : Char) : List Char → List (List Char)
  | [] => [[]]
  | c :: rest =>
    let groups := splitOnChar sep rest
    if c == sep then [] :: groups
    else
      match groups with
      | [] => [[c]]
      | g :: gs => (c :: g) :: gs

/-- Parse a nonempty all-digit character list as a natural number. -/
def natOfDigits : List Char → Option Nat
  | [] => none
  | cs =>
    if cs.all Char.isDigit then
      some (cs.foldl (fun acc c => acc * 10 + (c.toNat - 48)) 0)
    else none

/-- Parse an ISO-8601 `YYYY-MM-DD` string into a `Date`; anything else is
`none`.  The raw snapshot stores dates in this format (spec §6), so this is
the reachable fragment of `pd.to_datetime(..., errors="coerce")`. -/
def parseDate (s : String) : Option Date :=
  match splitOnChar '-' (pyStrip s).data with
  | [ys, ms, ds] =>
    match natOfDigits ys, natOfDigits ms, natOfDigits ds with
    | some y, some m, some d =>
      if 1 ≤ m && m ≤ 12 && 1 ≤ d && d ≤ daysInMonth y m then some ⟨y, m, d⟩
      else none
    | _, _, _ => none
  | _ => none

/-- `_safe_to_date`: parse a (possibly missing) cell into a date;
invalid or missing input becomes null, never an error. -/
def safe_to_date (c : Option String) : Option Date :=
  c.bind parseDate

/-- `.astype(str)` on a cell: a present string stays itself, a missing value
(NaN) becomes the literal string `"nan"`. -/
def asStr : Option String → String
  | none => "nan"
  | some s => s

def titleGo : Bool → List Char → List Char
  | _, [] => []
  | prevAlpha, c :: rest =>
    (if c.isAlpha then (if prevAlpha then c.toLower else c.toUpper) else c)
      :: titleGo c.isAlpha rest

/-- Python `str.title()`: the first alphabetic character of every maximal
alphabetic run is uppercased, the rest lowercased. -/
def pyTitle (s : String) : String := ⟨titleGo false s.data⟩

/-- `pd.to_numeric(..., errors="coerce").astype("Int64")` on the `age`
column, at integer-literal inputs (the only ones the pipeline produces). -/
def to_numeric_age (c : Option String) : Option Int :=
  c.bind (fun s =>
    match (pyStrip s).data with
    | '-' :: rest => (natOfDigits rest).map (fun n => -(n : Int))
    | cs => (natOfDigits cs).map (fun n => (n : Int)))

/-- Code-point lexicographic `<` on character lists: the order Python uses to
compare strings and pandas uses in `sort_values` on text columns. -/
def strLtL : List Char → List Char → Bool
  | [], [] => false
  | [], _ :: _ => true
  | _ :: _, [] => false
  | a :: as, b :: bs =>
    if a.toNat < b.toNat then true
    else if b.toNat < a.toNat then false
    else strLtL as bs

def strLt (a b : String) : Bool := strLtL a.data b.data

def strLe (a b : String) : Bool := !(strLt b a)

/-- One row of the raw snapshot CSV.  Every cell is optional: pandas reads a
missing cell as NaN. -/
structure RawRow where
  pet_id : Option String
  name : Option String
  age : Option String
  gender : Option String
  size : Option String
  status : Option String
  date_arrived : Option String
  adopted_date : Option String
  type : Option String
  breed : Option String
  shelter_name : Option String
  city : Option String
  state : Option String
  snapshot_date : Option String
deriving DecidableEq, Repr

/-- A raw snapshot as loaded by `pd.read_csv`: the header (`df.columns`) and
the data rows.  `_require_columns` inspects only the header. -/
structure RawSnapshot where
  cols : List String
  rows : List RawRow
deriving DecidableEq, Repr

/-- One reconciled record (a row of `pets_df` after
`apply_data_quality_rules`): text columns have been coerced to strings
(missing → `"nan"`), dates parsed, the two reconciliation rules applied. -/
structure PetRow where
  pet_id : String
  name : Option String
  age : Option Int
  gender : Option String
  size : Option String
  status : String
  date_arrived : Option Date
  adopted_date : Option Date
  type : String
  breed : String
  shelter_name : String
  city : String
  state : String
  snapshot_date : Option Date
deriving DecidableEq, Repr

/-- The normalized status of a raw row:
`pets_df["status"].astype(str).str.strip().str.title()`. -/
def normStatus (r : RawRow) : String := pyTitle (pyStrip (asStr r.status))

/-- `apply_data_quality_rules`, per row (the source's column-wise masks are
row-local, so the DataFrame version is the map of this function):
normalize dates and text, then
rule 1: a non-null `adopted_date` forces `status = "Adopted"`;
rule 2: `status = "Adopted"` with a null `adopted_date` backfills
`adopted_date` from `snapshot_date`.  The function is total: this step never
rejects a batch. -/
def apply_data_quality_rules (r : RawRow) : PetRow :=
  let date_arrived := safe_to_date r.date_arrived
  let adopted0 := safe_to_date r.adopted_date
  let snapshot_date := safe_to_date r.snapshot_date
  let status0 := normStatus r
  let type0 := pyTitle (pyStrip (asStr r.type))
  let breed0 := pyStrip (asStr r.breed)
  let shelter0 := pyStrip (asStr r.shelter_name)
  let city0 := pyStrip (asStr r.city)
  let state0 := pyStrip (asStr r.state)
  let status1 := if adopted0.isSome && status0 != "Adopted" then "Adopted" else status0
  let adopted1 := if status1 == "Adopted" && adopted0.isNone then snapshot_date else adopted0
  { pet_id := pyStrip (asStr r.pet_id)
    name := r.name
    age := to_numeric_age r.age
    gender := r.gender
    size := r.size
    status := status1
    date_arrived := date_arrived
    adopted_date := adopted1
    type := type0
    breed := breed0
    shelter_name := shelter0
    city := city0
    state := state0
    snapshot_date := snapshot_date }

/-- pandas `drop_duplicates()` / `Series.unique()`: keep the first occurrence
of every value, preserving order.  (`a` followed by the deduplication of the
tail with `a` removed is exactly the first-occurrence order, and the
definition is structural so it evaluates inside the kernel.) -/
def dedupKeepFirst [DecidableEq α] : List α → List α
  | [] => []
  | a :: l => a :: (dedupKeepFirst l).filter (fun b => b != a)

/-- Insertion into a sorted list (helper for `sortBy`). -/
def insertSorted (le : α → α → Bool) (a : α) : List α → List α
  | [] => [a]
  | b :: l => if le a b then a :: b :: l else b :: insertSorted le a l

/-- A stable sort by the boolean relation `le`; models pandas
`sort_values` (the sort keys below are pairwise distinct, so any correct
sort produces the same list). -/
def sortBy (le : α → α → Bool) (l : List α) : List α :=
  l.foldr (insertSorted le) []

/-- Assign each element of a list a freshly drawn identifier, consuming the
supply `ids` from index `n` upwards — the model of
`[str(uuid.uuid4()) for _ in range(len(df))]`. -/
def withIds (mk : α → String → β) (ids : Nat → String) : Nat → List α → List β
  | _, [] => []
  | n, a :: l => mk a (ids n) :: withIds mk ids (n + 1) l

/-- A row of the `pet_types` output: `(type, type_id)`. -/
structure TypeRow where
  type : String
  type_id : String
deriving DecidableEq, Repr

/-- A row of `breeds_df` before column projection: the `(type, breed)` pair,
the `type_id` obtained by the left merge against `pet_types`, and the fresh
`breed_id`. -/
structure BreedRowI where
  type : String
  breed : String
  type_id : Option String
  breed_id : String
deriving DecidableEq, Repr

/-- A saved row of the `breeds` output: `(breed, breed_id, type_id)`. -/
structure BreedOut where
  breed : String
  breed_id : String
  type_id : Option String
deriving DecidableEq, Repr

/-- A row of the `shelters` output: `(shelter_name, city, state, shelter_id)`. -/
structure ShelterRow where
  shelter_name : String
  city : String
  state : String
  shelter_id : String
deriving DecidableEq, Repr

/-- A row of the `animals` fact output. -/
structure FactRow where
  pet_id : String
  name : Option String
  age : Option Int
  gender : Option String
  size : Option String
  status : String
  date_arrived : Option Date
  adopted_date : Option Date
  type_id : Option String
  breed_id : Option String
  shelter_id : Option String
  snapshot_date : Option Date
  snapshot_file : Option String
deriving DecidableEq, Repr

/-- `types_df`: distinct `type` values of the reconciled batch
(`.dropna()` is a no-op: the column was coerced to strings), sorted, each
assigned a fresh id.  The id supply is consumed from index 0, matching the
source's first block of `uuid.uuid4()` calls. -/
def pet_types_df (pets : List PetRow) (ids : Nat → String) : List TypeRow :=
  withIds (fun t i => ⟨t, i⟩) ids 0
    (sortBy strLe (dedupKeepFirst (pets.map (·.type))))

/-- The left merge `breeds_df.merge(types_df, on="type", how="left")`
restricted to one key: `types_df` has pairwise-distinct `type` values, so the
merge is a first-match lookup. -/
def lookup_type_id (types : List TypeRow) (t : String) : Option String :=
  (types.find? (fun x => x.type == t)).map (·.type_id)

/-- `breeds_df`: distinct `(type, breed)` pairs of the reconciled batch,
left-merged with `types_df` on `type`, sorted by `(type, breed)`, each
assigned a fresh id (ids resume after the ones `types_df` consumed). -/
def breeds_df (pets : List PetRow) (ids : Nat → String) : List BreedRowI :=
  let types := pet_types_df pets ids
  let pairs := dedupKeepFirst (pets.map (fun r => (r.type, r.breed)))
  let merged := pairs.map (fun p => (p.1, p.2, lookup_type_id types p.1))
  let sorted := sortBy
    (fun x y => strLt x.1 y.1 || (x.1 == y.1 && strLe x.2.1 y.2.1)) merged
  withIds (fun x i => ⟨x.1, x.2.1, x.2.2, i⟩) ids types.length sorted

/-- `shelters_df`: distinct `(shelter_name, city, state)` tuples of the
reconciled batch in first-occurrence order (no sort in the source), each
assigned a fresh id (ids resume after types and breeds). -/
def shelters_df (pets : List PetRow) (ids : Nat → String) : List ShelterRow :=
  let types := pet_types_df pets ids
  let breeds := breeds_df pets ids
  let tuples := dedupKeepFirst
    (pets.map (fun r => (r.shelter_name, r.city, r.state)))
  withIds (fun x i => ⟨x.1, x.2.1, x.2.2, i⟩) ids
    (types.length + breeds.length) tuples

/-- `animals_df`: the fact build.  Left merge with `types_df` on `type` and
with `shelters_df` on the full tuple are first-match lookups (those keys are
pairwise distinct by construction); the left merge with
`breeds_df[["breed", "type_id", "breed_id"]]` on `(breed, type_id)` is a
genuine join (a row is emitted per matching breed row, or one row with a
null `breed_id` when nothing matches), after which the canonical fact
columns are selected and the run's `snapshot_file` is stamped on every row. -/
def animals_df (pets : List PetRow) (ids : Nat → String)
    (snapshot_file : String) : List FactRow :=
  let types := pet_types_df pets ids
  let breeds := breeds_df pets ids
  let shelters := shelters_df pets ids
  pets.flatMap (fun r =>
    let tid := lookup_type_id types r.type
    let bmatches := breeds.filter (fun b => b.breed == r.breed && b.type_id == tid)
    let bids : List (Option String) :=
      if bmatches.isEmpty then [none] else bmatches.map (fun b => some b.breed_id)
    bids.map (fun bid =>
      let sid := (shelters.find? (fun s =>
        s.shelter_name == r.shelter_name && s.city == r.city
          && s.state == r.state)).map (·.shelter_id)
      { pet_id := r.pet_id, name := r.name, age := r.age, gender := r.gender,
        size := r.size, status := r.status, date_arrived := r.date_arrived,
        adopted_date := r.adopted_date, type_id := tid, breed_id := bid,
        shelter_id := sid, snapshot_date := r.snapshot_date,
        snapshot_file := some snapshot_file }))

/-- The saved projection of `breeds_df`: columns `[breed, breed_id, type_id]`. -/
def breeds_out (pets : List PetRow) (ids : Nat → String) : List BreedOut :=
  (breeds_df pets ids).map (fun b => ⟨b.breed, b.breed_id, b.type_id⟩)

/-- The columns `pd.read_csv` must find in a snapshot (`required_cols` in the
source, same order). -/
def required_cols : List String :=
  ["pet_id", "name", "age", "gender", "size", "status",
   "date_arrived", "adopted_date", "type", "breed",
   "shelter_name", "city", "state", "snapshot_date"]

/-- `_require_columns`: the schema check passes iff no required column is
missing from the snapshot header. -/
def _require_columns (snap : RawSnapshot) : Bool :=
  required_cols.all (fun c => snap.cols.contains c)

/-- One file written by `save_clean` (each save writes the CSV and the
Parquet serialization of the same table; the pair is one event here). -/
inductive Saved
  | pet_types (rows : List TypeRow)
  | breeds (rows : List BreedOut)
  | shelters (rows : List ShelterRow)
  | animals (rows : List FactRow)
deriving DecidableEq, Repr

def savedName : Saved → String
  | .pet_types _ => "pet_types"
  | .breeds _ => "breeds"
  | .shelters _ => "shelters"
  | .animals _ => "animals"

/-- Outcome of one transform run: which clean outputs were (re)written, in
order, and whether the run completed. -/
structure TransformResult where
  writes : List Saved
  ok : Bool
deriving DecidableEq, Repr

/-- `update_clean_csvs_db_aware`, statement by statement.  The statement
sequence of the source (0-based) is: 0 pick+read the snapshot,
1 `_require_columns`, 2 `apply_data_quality_rules`, 3 build `types_df`,
4 save `pet_types`, 5 build `breeds_df`, 6 save `breeds`, 7 build
`shelters_df`, 8 save `shelters`, 9 build `animals_df`, 10 save `animals`.
`fuel` is the number of statements the environment lets the run execute; a
statement with index `≥ fuel` is where an exogenous fatal error kills the
run.  `sf` is `os.path.basename(target_snapshot)`. -/
def update_clean_csvs_db_aware (snap : RawSnapshot) (ids : Nat → String)
    (sf : String) (fuel : Nat) : TransformResult :=
  let pets := snap.rows.map apply_data_quality_rules
  if fuel ≤ 1 then ⟨[], false⟩
  else if !(_require_columns snap) then ⟨[], false⟩
  else if fuel ≤ 4 then ⟨[], false⟩
  else if fuel ≤ 6 then ⟨[.pet_types (pet_types_df pets ids)], false⟩
  else if fuel ≤ 8 then
    ⟨[.pet_types (pet_types_df pets ids), .breeds (breeds_out pets ids)], false⟩
  else if fuel ≤ 10 then
    ⟨[.pet_types (pet_types_df pets ids), .breeds (breeds_out pets ids),
      .shelters (shelters_df pets ids)], false⟩
  else
    ⟨[.pet_types (pet_types_df pets ids), .breeds (breeds_out pets ids),
      .shelters (shelters_df pets ids), .animals (animals_df pets ids sf)], true⟩

/-- A row of the `loaded_snapshots` ledger.  (`loaded_at` defaults to `NOW()`
at the destination and no claim mentions it, so it is not modelled.) -/
structure LedgerRow where
  snapshot_file : String
  snapshot_date : Date
deriving DecidableEq, Repr

/-- The destination store: the four relational tables plus the ledger.
`ensure_loaded_snapshots_table` (`CREATE TABLE IF NOT EXISTS`) only creates
an empty ledger when the table is missing and never changes rows, so it is
the identity on this state. -/
structure DB where
  pet_types : List TypeRow
  breeds : List BreedOut
  shelters : List ShelterRow
  animals : List FactRow
  loaded_snapshots : List LedgerRow
deriving DecidableEq, Repr

/-- `upsert_table`: `INSERT ... ON CONFLICT (key) DO UPDATE SET` all non-key
columns, executed row by row in batch order — insert when the key is new,
otherwise overwrite the whole conflicting row (key equal, all other columns
replaced: last write wins). -/
def upsert_table [DecidableEq κ] (table : List ρ) (key : ρ → κ)
    (incoming : List ρ) : List ρ :=
  incoming.foldl (fun acc r =>
    if acc.any (fun x => decide (key x = key r))
    then acc.map (fun x => if key x = key r then r else x)
    else acc ++ [r]) table

/-- `snapshot_already_loaded`: does the ledger contain this snapshot file? -/
def snapshot_already_loaded (db : DB) (sf : String) : Bool :=
  db.loaded_snapshots.any (fun e => e.snapshot_file == sf)

/-- `mark_snapshot_loaded`: `INSERT INTO loaded_snapshots ... ON CONFLICT
(snapshot_file) DO NOTHING`. -/
def mark_snapshot_loaded (db : DB) (sf : String) (sd : Date) : DB :=
  if snapshot_already_loaded db sf then db
  else { db with loaded_snapshots := db.loaded_snapshots ++ [⟨sf, sd⟩] }

/-- The distinct non-null `snapshot_file` values of the animals table:
`animals_df["snapshot_file"].dropna().unique().tolist()`. -/
def uniqueFiles (animals : List FactRow) : List String :=
  dedupKeepFirst (animals.filterMap (·.snapshot_file))

/-- The distinct non-null `snapshot_date` values of the animals table. -/
def uniqueDates (animals : List FactRow) : List Date :=
  dedupKeepFirst (animals.filterMap (·.snapshot_date))

/-- The clean outputs as found on disk by `load_parquet`; `none` means the
Parquet file is missing (`FileNotFoundError`). -/
structure CleanFiles where
  pet_types : Option (List TypeRow)
  breeds : Option (List BreedOut)
  shelters : Option (List ShelterRow)
  animals : Option (List FactRow)
deriving DecidableEq, Repr

/-- One destination write performed by the loader (a DB statement that
changes table contents; `upsert_table` on an empty DataFrame is skipped by
the source and emits nothing). -/
inductive WEvent
  | upsertPetTypes
  | upsertBreeds
  | upsertShelters
  | upsertAnimals
  | insertLedger
deriving DecidableEq, Repr

/-- Outcome of one loader run: the destination state afterwards, the writes
performed in order, and whether the run finished without an error. -/
structure LoadResult where
  db : DB
  events : List WEvent
  ok : Bool
deriving DecidableEq, Repr

/-- `load_incremental`, statement by statement.  The connection is
`autocommit`, so every executed statement is immediately durable.  Statement
sequence (0-based): 0 connect + `ensure_loaded_snapshots_table`,
1 read `animals.parquet` (fails when missing), 2 the `snapshot_file`
uniqueness check, 3 the `snapshot_date` uniqueness check, 4 the
`snapshot_already_loaded` short-circuit (early successful return, no
writes), 5 read + upsert `pet_types`, 6 read + upsert `breeds`, 7 read +
upsert `shelters`, 8 upsert `animals`, 9 `mark_snapshot_loaded`.  `fuel` is
the number of statements the environment lets the run execute before an
exogenous failure (lost connection, ...) aborts it.  The write phase
(statements 5–9, reached only when the snapshot is not yet in the ledger)
is factored out as `load_phase2`. -/
def load_phase2 (db : DB) (pet_types_file : Option (List TypeRow))
    (breeds_file : Option (List BreedOut))
    (shelters_file : Option (List ShelterRow)) (animals : List FactRow)
    (snapshot_file : String) (snapshot_date : Date) (fuel : Nat) : LoadResult :=
  if fuel ≤ 5 then ⟨db, [], false⟩
  else
    match pet_types_file with
    | none => ⟨db, [], false⟩
    | some pts =>
      let db1 := { db with
        pet_types := upsert_table db.pet_types (·.type_id) pts }
      let e1 : List WEvent :=
        if pts.isEmpty then [] else [.upsertPetTypes]
      if fuel ≤ 6 then ⟨db1, e1, false⟩
      else
        match breeds_file with
        | none => ⟨db1, e1, false⟩
        | some brs =>
          let db2 := { db1 with
            breeds := upsert_table db1.breeds (·.breed_id) brs }
          let e2 := e1 ++ if brs.isEmpty then [] else [.upsertBreeds]
          if fuel ≤ 7 then ⟨db2, e2, false⟩
          else
            match shelters_file with
            | none => ⟨db2, e2, false⟩
            | some shs =>
              let db3 := { db2 with
                shelters := upsert_table db2.shelters (·.shelter_id) shs }
              let e3 := e2 ++ if shs.isEmpty then [] else [.upsertShelters]
              if fuel ≤ 8 then ⟨db3, e3, false⟩
              else
                let db4 := { db3 with
                  animals := upsert_table db3.animals (·.pet_id) animals }
                let e4 := e3 ++ if animals.isEmpty then [] else [.upsertAnimals]
                if fuel ≤ 9 then ⟨db4, e4, false⟩
                else
                  ⟨mark_snapshot_loaded db4 snapshot_file snapshot_date,
                    e4 ++ [.insertLedger], true⟩

def load_incremental (db : DB) (f : CleanFiles) (fuel : Nat) : LoadResult :=
  if fuel ≤ 1 then ⟨db, [], false⟩
  else
    match f.animals with
    | none => ⟨db, [], false⟩
    | some animals =>
      if fuel ≤ 2 then ⟨db, [], false⟩
      else
        match uniqueFiles animals with
        | [snapshot_file] =>
          if fuel ≤ 3 then ⟨db, [], false⟩
          else
            match uniqueDates animals with
            | [snapshot_date] =>
              if fuel ≤ 4 then ⟨db, [], false⟩
              else if snapshot_already_loaded db snapshot_file then
                ⟨db, [], true⟩
              else
                load_phase2 db f.pet_types f.breeds f.shelters animals
                  snapshot_file snapshot_date fuel
            | _ => ⟨db, [], false⟩
        | _ => ⟨db, [], false⟩

/-- A deterministic stand-in for the uuid4 supply used in concrete runs. -/
def sampleIds : Nat → String := fun n => "u" ++ Nat.repr n

def sampleRow1 : RawRow :=
  { pet_id := some "p1", name := some "Rex", age := some "3",
    gender := some "M", size := some "L", status := some "Available",
    date_arrived := some "2025-05-01", adopted_date := none,
    type := some "Dog", breed := some "Lab", shelter_name := some "A",
    city := some "X", state := some "TX", snapshot_date := some "2025-06-01" }

def sampleRow2 : RawRow :=
  { pet_id := some "p2", name := some "Tom", age := some "2",
    gender := some "F", size := some "S", status := some "Pending",
    date_arrived := some "2025-05-02", adopted_date := some "2025-05-20",
    type := some "Cat", breed := some "Tabby", shelter_name := some "B",
    city := some "Y", state := some "CA", snapshot_date := some "2025-06-01" }

def sampleSnap : RawSnapshot :=
  { cols := required_cols, rows := [sampleRow1, sampleRow2] }

def samplePets : List PetRow := sampleSnap.rows.map apply_data_quality_rules

def emptyDB : DB := ⟨[], [], [], [], []⟩

def sampleFiles : CleanFiles :=
  { pet_types := some (pet_types_df samplePets sampleIds)
    breeds := some (breeds_out samplePets sampleIds)
    shelters := some (shelters_df samplePets sampleIds)
    animals := some (animals_df samplePets sampleIds "s1.csv") }

/-- A raw row whose dimension columns are all missing: normalization turns
them into the literal strings `"Nan"`/`"nan"`. -/
def sampleRowNan : RawRow :=
  { sampleRow1 with
    type := none, breed := none, shelter_name := none,
    city := none, state := none }

/-- The single fact row built from `sampleRowNan`. -/
def sampleNanFact : FactRow :=
  { pet_id := "p1", name := some "Rex", age := some 3, gender := some "M",
    size := some "L", status := "Available",
    date_arrived := some ⟨2025, 5, 1⟩, adopted_date := none,
    type_id := some "u0", breed_id := some "u1", shelter_id := some "u2",
    snapshot_date := some ⟨2025, 6, 1⟩, snapshot_file := some "s1.csv" }

/-- A snapshot whose header lacks the `breed` column. -/
def sampleSnapNoBreed : RawSnapshot :=
  { cols := required_cols.filter (fun c => c != "breed"), rows := [sampleRow1] }

/-- A schema-valid batch whose two rows carry two distinct `snapshot_date`
values (an ambiguous batch). -/
def sampleSnapTwoDates : RawSnapshot :=
  { cols := required_cols,
    rows := [sampleRow1, { sampleRow2 with snapshot_date := some "2025-06-02" }] }

/-- The destination after the sample snapshot has been loaded once. -/
def sampleDBLoaded : DB := (load_incremental emptyDB sampleFiles 100).db

/-- The clean outputs of the transform run on the two-date batch. -/
def sampleFilesTwoDates : CleanFiles :=
  { pet_types := some (pet_types_df
      (sampleSnapTwoDates.rows.map apply_data_quality_rules) sampleIds)
    breeds := some (breeds_out
      (sampleSnapTwoDates.rows.map apply_data_quality_rules) sampleIds)
    shelters := some (shelters_df
      (sampleSnapTwoDates.rows.map apply_data_quality_rules) sampleIds)
    animals := some (animals_df
      (sampleSnapTwoDates.rows.map apply_data_quality_rules) sampleIds
      "s1.csv") }

example : Decidable ("a" ≤ "b") := inferInstance

example :
    (apply_data_quality_rules
      { pet_id := some "p1", name := some "Rex", age := some "3",
        gender := some "M", size := some "L", status := some " pending ",
        date_arrived := some "2025-05-01", adopted_date := some "2025-05-05",
        type := some "dog", breed := some "Lab", shelter_name := some "A",
        city := some "X", state := some "TX",
        snapshot_date := some "2025-06-01" }).status = "Adopted" := by
  decide

example :
    (apply_data_quality_rules
      { pet_id := some "p1", name := some "Rex", age := some "3",
        gender := some "M", size := some "L", status := some "Adopted",
        date_arrived := some "2025-05-01", adopted_date := none,
        type := some "dog", breed := some "Lab", shelter_name := some "A",
        city := some "X", state := some "TX",
        snapshot_date := some "2025-06-01" }).adopted_date
      = some ⟨2025, 6, 1⟩ := by
  decide

example :
    (pet_types_df samplePets sampleIds) =
      [⟨"Cat", "u0"⟩, ⟨"Dog", "u1"⟩] := by decide

example :
    (breeds_out samplePets sampleIds) =
      [⟨"Tabby", "u2", some "u0"⟩, ⟨"Lab", "u3", some "u1"⟩] := by decide

example :
    (shelters_df samplePets sampleIds) =
      [⟨"A", "X", "TX", "u4"⟩, ⟨"B", "Y", "CA", "u5"⟩] := by decide

example :
    ((animals_df samplePets sampleIds "s1.csv").map (·.type_id)) =
      [some "u1", some "u0"] := by decide

example :
    (update_clean_csvs_db_aware sampleSnap sampleIds "s1.csv" 100).ok = true := by
  decide

example :
    (load_incremental emptyDB sampleFiles 100).events =
      [.upsertPetTypes, .upsertBreeds, .upsertShelters, .upsertAnimals,
       .insertLedger] := by decide

example :
    (load_incremental (load_incremental emptyDB sampleFiles 100).db
        sampleFiles 100).events = [] := by decide

theorem mem_dedupKeepFirst [DecidableEq α] (x : α) (l : List α) :
    x ∈ dedupKeepFirst l ↔ x ∈ l := by
  induction l with
  | nil => simp [dedupKeepFirst]
  | cons a l ih =>
    by_cases hx : x = a
    · subst hx; simp [dedupKeepFirst]
    · simp [dedupKeepFirst, hx, List.mem_filter, bne_iff_ne, ih]

theorem nodup_dedupKeepFirst [DecidableEq α] (l : List α) :
    (dedupKeepFirst l).Nodup := by
  induction l with
  | nil => simp [dedupKeepFirst]
  | cons a l ih =>
    rw [dedupKeepFirst]
    refine List.nodup_cons.mpr ⟨?_, List.Nodup.filter _ ih⟩
    intro hmem
    rw [List.mem_filter] at hmem
    simp [bne_iff_ne] at hmem

theorem count_eq_one_of_nodup_mem [BEq α] [LawfulBEq α] {a : α} {l : List α}
    (d : l.Nodup) (h : a ∈ l) : l.count a = 1 := by
  induction l with
  | nil => cases h
  | cons b l ih =>
    rcases List.mem_cons.mp h with rfl | hl
    · rw [List.count_cons_self]
      rw [List.count_eq_zero.mpr (List.nodup_cons.mp d).1]
    · have hne : a ≠ b := by
        rintro rfl; exact (List.nodup_cons.mp d).1 hl
      rw [List.count_cons_of_ne hne, ih (List.nodup_cons.mp d).2 hl]

theorem count_dedupKeepFirst [DecidableEq α] [BEq α] [LawfulBEq α]
    (x : α) (l : List α) :
    (dedupKeepFirst l).count x = if x ∈ l then 1 else 0 := by
  by_cases hx : x ∈ l
  · simp only [hx, if_true]
    exact count_eq_one_of_nodup_mem (nodup_dedupKeepFirst l)
      ((mem_dedupKeepFirst x l).mpr hx)
  · simp only [hx, if_false]
    exact List.count_eq_zero.mpr
      (fun h => hx ((mem_dedupKeepFirst x l).mp h))

theorem mem_insertSorted (le : α → α → Bool) (a x : α) (l : List α) :
    x ∈ insertSorted le a l ↔ x = a ∨ x ∈ l := by
  induction l with
  | nil => simp [insertSorted]
  | cons b l ih =>
    by_cases h : le a b
    · simp [insertSorted, h]
    · simp [insertSorted, h, ih]; tauto

theorem mem_sortBy (le : α → α → Bool) (x : α) (l : List α) :
    x ∈ sortBy le l ↔ x ∈ l := by
  induction l with
  | nil => simp [sortBy]
  | cons b l ih =>
    simp only [sortBy, List.foldr_cons] at *
    rw [mem_insertSorted, ih]
    simp

theorem mem_withIds_of_mem (mk : α → String → β) (ids : Nat → String)
    (a : α) (l : List α) (h : a ∈ l) :
    ∀ n, ∃ k, mk a (ids k) ∈ withIds mk ids n l := by
  induction l with
  | nil => cases h
  | cons b l ih =>
    intro n
    rcases List.mem_cons.mp h with hb | hl
    · exact ⟨n, by simp [withIds, hb]⟩
    · rcases ih hl (n + 1) with ⟨k, hk⟩
      exact ⟨k, by simp [withIds, hk]⟩

theorem mem_withIds (mk : α → String → β) (ids : Nat → String)
    (b : β) : ∀ (n : Nat) (l : List α), b ∈ withIds mk ids n l →
    ∃ a ∈ l, ∃ k, b = mk a (ids k) := by
  intro n l
  induction l generalizing n with
  | nil => intro h; cases h
  | cons a l ih =>
    intro h
    rcases List.mem_cons.mp h with hb | hl
    · exact ⟨a, List.mem_cons_self a l, n, hb⟩
    · rcases ih (n + 1) hl with ⟨a', ha', k, hk⟩
      exact ⟨a', List.mem_cons_of_mem _ ha', k, hk⟩

theorem map_withIds (mk : α → String → β) (proj : β → α) (ids : Nat → String)
    (hproj : ∀ a s, proj (mk a s) = a) :
    ∀ (n : Nat) (l : List α), (withIds mk ids n l).map proj = l := by
  intro n l
  induction l generalizing n with
  | nil => rfl
  | cons a l ih => simp [withIds, hproj, ih]

/-- Every type occurring in the batch has a row in the type dimension. -/
theorem mem_pet_types_of_mem (pets : List PetRow) (ids : Nat → String)
    (t : String) (h : t ∈ pets.map (·.type)) :
    ∃ row ∈ pet_types_df pets ids, row.type = t := by
  unfold pet_types_df
  have h1 : t ∈ sortBy strLe (dedupKeepFirst (pets.map (·.type))) := by
    rw [mem_sortBy, mem_dedupKeepFirst]; exact h
  rcases mem_withIds_of_mem (fun t i => TypeRow.mk t i) ids t _ h1 0 with ⟨k, hk⟩
  exact ⟨⟨t, ids k⟩, hk, rfl⟩

/-- The type-dimension lookup succeeds for every type present in the batch. -/
theorem lookup_type_id_isSome (pets : List PetRow) (ids : Nat → String)
    (t : String) (h : t ∈ pets.map (·.type)) :
    (lookup_type_id (pet_types_df pets ids) t).isSome := by
  rcases mem_pet_types_of_mem pets ids t h with ⟨row, hrow, hty⟩
  unfold lookup_type_id
  cases hfind : (pet_types_df pets ids).find? (fun x => x.type == t) with
  | some r => simp
  | none =>
    rw [List.find?_eq_none] at hfind
    exact absurd (by simp [hty]) (hfind row hrow)

/-- Every row of `breeds_df` carries exactly the `type_id` the left merge
looked up for its own `type` value. -/
theorem breeds_df_type_id_eq_lookup (pets : List PetRow) (ids : Nat → String)
    (b : BreedRowI) (hb : b ∈ breeds_df pets ids) :
    b.type_id = lookup_type_id (pet_types_df pets ids) b.type := by
  unfold breeds_df at hb
  rcases mem_withIds _ ids b _ _ hb with ⟨x, hx, k, hk⟩
  rw [mem_sortBy] at hx
  rcases List.mem_map.mp hx with ⟨p, _, hp⟩
  subst hk
  simp only [← hp]

/-- For every record of the batch, `breeds_df` contains a row for its
`(type, breed)` pair, carrying the looked-up `type_id`. -/
theorem breeds_df_covers (pets : List PetRow) (ids : Nat → String)
    (r : PetRow) (hr : r ∈ pets) :
    ∃ b ∈ breeds_df pets ids, b.breed = r.breed ∧
      b.type_id = lookup_type_id (pet_types_df pets ids) r.type := by
  unfold breeds_df
  have hp : (r.type, r.breed) ∈ dedupKeepFirst (pets.map (fun r => (r.type, r.breed))) := by
    rw [mem_dedupKeepFirst]
    exact List.mem_map.mpr ⟨r, hr, rfl⟩
  have hm : (r.type, r.breed, lookup_type_id (pet_types_df pets ids) r.type) ∈
      (dedupKeepFirst (pets.map (fun r => (r.type, r.breed)))).map
        (fun p => (p.1, p.2, lookup_type_id (pet_types_df pets ids) p.1)) := by
    exact List.mem_map.mpr ⟨(r.type, r.breed), hp, rfl⟩
  have hs := (mem_sortBy
    (fun x y => strLt x.1 y.1 || (x.1 == y.1 && strLe x.2.1 y.2.1)) _ _).mpr hm
  rcases mem_withIds_of_mem (fun x i => BreedRowI.mk x.1 x.2.1 x.2.2 i) ids _ _ hs
    (pet_types_df pets ids).length with ⟨k, hk⟩
  exact ⟨_, hk, rfl, rfl⟩

/-- Every `(shelter_name, city, state)` tuple of the batch has a row in the
shelter dimension. -/
theorem mem_shelters_of_mem (pets : List PetRow) (ids : Nat → String)
    (r : PetRow) (hr : r ∈ pets) :
    ∃ s ∈ shelters_df pets ids, s.shelter_name = r.shelter_name ∧
      s.city = r.city ∧ s.state = r.state := by
  unfold shelters_df
  have ht : (r.shelter_name, r.city, r.state) ∈
      dedupKeepFirst (pets.map (fun r => (r.shelter_name, r.city, r.state))) := by
    rw [mem_dedupKeepFirst]
    exact List.mem_map.mpr ⟨r, hr, rfl⟩
  rcases mem_withIds_of_mem (fun x i => ShelterRow.mk x.1 x.2.1 x.2.2 i) ids _ _ ht
    ((pet_types_df pets ids).length + (breeds_df pets ids).length) with ⟨k, hk⟩
  exact ⟨_, hk, rfl, rfl, rfl⟩

/-- C6: in reconciliation, a record with a non-null (parsed) `adopted_date`
whose normalized status differs from `"Adopted"` gets its status forced to
`"Adopted"` while its `adopted_date` is left unchanged. -/
theorem reconcile_date_overrides_status (r : RawRow) (d : Date)
    (had : safe_to_date r.adopted_date = some d)
    (hst : normStatus r ≠ "Adopted") :
    (apply_data_quality_rules r).status = "Adopted" ∧
    (apply_data_quality_rules r).adopted_date = some d := by
  unfold apply_data_quality_rules
  simp [had, hst, bne_iff_ne]

/-- C6 witness: a record with `adopted_date = 2025-05-20` and original status
`"Pending"` ends with status `"Adopted"` and its `adopted_date` preserved. -/
theorem reconcile_date_overrides_status_witness :
    (apply_data_quality_rules sampleRow2).status = "Adopted" ∧
    (apply_data_quality_rules sampleRow2).adopted_date = some ⟨2025, 5, 20⟩ :=
  reconcile_date_overrides_status sampleRow2 ⟨2025, 5, 20⟩ (by decide) (by decide)

/-- C7: in reconciliation, a record whose status after rule 1 is `"Adopted"`
but whose `adopted_date` parsed to null gets `adopted_date` backfilled with
the record's (parsed) `snapshot_date`; and the reconcile-and-build phase
never rejects a batch — every schema-valid snapshot runs to completion. -/
theorem reconcile_backfills_adopted_date (r : RawRow) (snap : RawSnapshot)
    (ids : Nat → String) (sf : String) (fuel : Nat)
    (hst : (apply_data_quality_rules r).status = "Adopted")
    (had : safe_to_date r.adopted_date = none)
    (hsch : _require_columns snap = true) (hfuel : 11 ≤ fuel) :
    (apply_data_quality_rules r).adopted_date = safe_to_date r.snapshot_date ∧
    (update_clean_csvs_db_aware snap ids sf fuel).ok = true := by
  constructor
  · have hst' : normStatus r = "Adopted" := by
      unfold apply_data_quality_rules at hst
      simpa [had] using hst
    unfold apply_data_quality_rules
    simp [had, hst']
  · unfold update_clean_csvs_db_aware
    have h1 : ¬ fuel ≤ 1 := by omega
    have h4 : ¬ fuel ≤ 4 := by omega
    have h6 : ¬ fuel ≤ 6 := by omega
    have h8 : ¬ fuel ≤ 8 := by omega
    have h10 : ¬ fuel ≤ 10 := by omega
    simp [h1, h4, h6, h8, h10, hsch]

/-- C7 witness: status `"Adopted"`, empty `adopted_date`, snapshot date
2025-06-01 ends with `adopted_date = 2025-06-01`; the sample snapshot's run
completes. -/
theorem reconcile_backfills_adopted_date_witness :
    (apply_data_quality_rules
      { sampleRow1 with status := some "Adopted" }).adopted_date
        = safe_to_date (some "2025-06-01") ∧
    (update_clean_csvs_db_aware sampleSnap sampleIds "s1.csv" 11).ok = true :=
  reconcile_backfills_adopted_date { sampleRow1 with status := some "Adopted" }
    sampleSnap sampleIds "s1.csv" 11 (by decide) (by decide) (by decide)
    (by decide)

/-- C8: every breed row whose `type` value was retained in the same run's
type dimension carries a `type_id` that is present in that type dimension —
the breed foreign key resolves within the same build. -/
theorem breed_type_id_resolves (pets : List PetRow) (ids : Nat → String)
    (b : BreedRowI) (hb : b ∈ breeds_df pets ids)
    (ht : b.type ∈ (pet_types_df pets ids).map (·.type)) :
    ∃ tid, b.type_id = some tid ∧
      tid ∈ (pet_types_df pets ids).map (·.type_id) := by
  have hlk := breeds_df_type_id_eq_lookup pets ids b hb
  rcases List.mem_map.mp ht with ⟨row, hrow, hty⟩
  unfold lookup_type_id at hlk
  cases hfind : (pet_types_df pets ids).find? (fun x => x.type == b.type) with
  | none =>
    rw [List.find?_eq_none] at hfind
    exact absurd (by simp [hty]) (hfind row hrow)
  | some r' =>
    rw [hfind] at hlk
    exact ⟨r'.type_id, hlk,
      List.mem_map.mpr ⟨r', List.mem_of_find?_eq_some hfind, rfl⟩⟩

/-- C8 witness: in the sample build, the `(Cat, Tabby)` breed row's
`type_id` is a `type_id` of the same run's type dimension. -/
theorem breed_type_id_resolves_witness :
    ∃ tid, (BreedRowI.mk "Cat" "Tabby" (some "u0") "u2").type_id = some tid ∧
      tid ∈ (pet_types_df samplePets sampleIds).map (·.type_id) :=
  breed_type_id_resolves samplePets sampleIds
    (BreedRowI.mk "Cat" "Tabby" (some "u0") "u2") (by decide) (by decide)

/-- C9: the shelter dimension has exactly one row per distinct
`(shelter_name, city, state)` tuple occurring in the (reconciled) batch —
in particular, two records sharing a shelter name but differing in city or
state yield two distinct rows. -/
theorem shelters_one_row_per_tuple (pets : List PetRow) (ids : Nat → String)
    (t : String × String × String) :
    ((shelters_df pets ids).map
        (fun s => (s.shelter_name, s.city, s.state))).count t
      = if t ∈ pets.map (fun r => (r.shelter_name, r.city, r.state))
        then 1 else 0 := by
  unfold shelters_df
  rw [map_withIds (fun x i => ShelterRow.mk x.1 x.2.1 x.2.2 i)
    (fun s => (s.shelter_name, s.city, s.state)) ids (fun a s => rfl)]
  exact count_dedupKeepFirst t _

/-- C10 (general form): every fact row built by `animals_df` has non-null
`type_id`, `breed_id` and `shelter_id`: after normalization the join columns
are plain strings (missing values became the literals `"nan"`/`"Nan"`), so
every left join finds a dimension row and the null-foreign-key outcome is
unreachable. -/
theorem animals_df_fks_isSome (pets : List PetRow) (ids : Nat → String)
    (sf : String) (fr : FactRow) (hfr : fr ∈ animals_df pets ids sf) :
    fr.type_id.isSome ∧ fr.breed_id.isSome ∧ fr.shelter_id.isSome := by
  unfold animals_df at hfr
  rcases List.mem_flatMap.mp hfr with ⟨r, hr, hfr2⟩
  rcases List.mem_map.mp hfr2 with ⟨bid, hbid, hmk⟩
  have htid : (lookup_type_id (pet_types_df pets ids) r.type).isSome :=
    lookup_type_id_isSome pets ids r.type (List.mem_map.mpr ⟨r, hr, rfl⟩)
  have hbmatch : ¬ ((breeds_df pets ids).filter
      (fun b => b.breed == r.breed &&
        b.type_id == lookup_type_id (pet_types_df pets ids) r.type)).isEmpty = true := by
    rcases breeds_df_covers pets ids r hr with ⟨b, hb, hbr, hbt⟩
    intro hempty
    rw [List.isEmpty_iff] at hempty
    have : b ∈ ((breeds_df pets ids).filter
        (fun b => b.breed == r.breed &&
          b.type_id == lookup_type_id (pet_types_df pets ids) r.type)) := by
      rw [List.mem_filter]
      exact ⟨hb, by simp [hbr, hbt]⟩
    rw [hempty] at this
    cases this
  have hsid : ((shelters_df pets ids).find? (fun s =>
      s.shelter_name == r.shelter_name && s.city == r.city
        && s.state == r.state)).isSome := by
    rcases mem_shelters_of_mem pets ids r hr with ⟨s, hs, h1, h2, h3⟩
    cases hfind : (shelters_df pets ids).find? (fun s =>
        s.shelter_name == r.shelter_name && s.city == r.city
          && s.state == r.state) with
    | some _ => simp
    | none =>
      rw [List.find?_eq_none] at hfind
      exact absurd (by simp [h1, h2, h3]) (hfind s hs)
  subst hmk
  refine ⟨htid, ?_, by simpa using hsid⟩
  simp only [hbmatch, if_false] at hbid
  rcases List.mem_map.mp hbid with ⟨b, _, hbeq⟩
  simp [← hbeq]

/-- C10: fact rows built from any reconciled batch (the image of the raw rows
under `apply_data_quality_rules`) have non-null foreign keys. -/
theorem fact_fks_never_null (raws : List RawRow) (ids : Nat → String)
    (sf : String) (fr : FactRow)
    (hfr : fr ∈ animals_df (raws.map apply_data_quality_rules) ids sf) :
    fr.type_id.isSome ∧ fr.breed_id.isSome ∧ fr.shelter_id.isSome :=
  animals_df_fks_isSome (raws.map apply_data_quality_rules) ids sf fr hfr

/-- C10 witness: the concrete fact row of the sample build whose `type`,
`breed` and shelter fields came from missing cells (coerced to
`"Nan"`/`"nan"`) still has all three foreign keys non-null. -/
theorem fact_fks_never_null_witness :
    sampleNanFact.type_id.isSome ∧ sampleNanFact.breed_id.isSome ∧
      sampleNanFact.shelter_id.isSome :=
  fact_fks_never_null [sampleRowNan] sampleIds "s1.csv" sampleNanFact
    (by decide)

/-- C5: a snapshot missing any required input column (e.g. `breed`) makes
the transform raise the schema error and write zero output files —
whatever else happens to the run. -/
theorem missing_column_writes_nothing (snap : RawSnapshot) (ids : Nat → String)
    (sf : String) (fuel : Nat) (c : String) (hc : c ∈ required_cols)
    (hmiss : c ∉ snap.cols) :
    (update_clean_csvs_db_aware snap ids sf fuel).writes = [] ∧
    (update_clean_csvs_db_aware snap ids sf fuel).ok = false := by
  have hsch : _require_columns snap = false := by
    unfold _require_columns
    rw [List.all_eq_false]
    exact ⟨c, hc, by simpa using hmiss⟩
  unfold update_clean_csvs_db_aware
  by_cases h1 : fuel ≤ 1 <;> simp [h1, hsch]

/-- C5 witness: the concrete no-`breed` snapshot fails and writes nothing,
even with unlimited fuel. -/
theorem missing_column_writes_nothing_witness :
    (update_clean_csvs_db_aware sampleSnapNoBreed sampleIds "s1.csv" 100).writes
        = [] ∧
    (update_clean_csvs_db_aware sampleSnapNoBreed sampleIds "s1.csv" 100).ok
        = false :=
  missing_column_writes_nothing sampleSnapNoBreed sampleIds "s1.csv" 100 "breed"
    (by decide) (by decide)

/-- C1 counterexample: a transform run on a perfectly valid batch that dies
after statement 8 (while building/saving the animals table) is a failing run
that has already replaced `pet_types`, `breeds` and `shelters` — a fatal
error does NOT imply zero output files, because each output is saved as soon
as its own table is built, before the remaining tables are built. -/
theorem transform_mid_run_failure_counterexample :
    (update_clean_csvs_db_aware sampleSnap sampleIds "s1.csv" 9).ok = false ∧
    ((update_clean_csvs_db_aware sampleSnap sampleIds "s1.csv" 9).writes).map
      savedName = ["pet_types", "breeds", "shelters"] := by
  decide

/-- C1 (amended): the transform's writes always form a prefix of
`[pet_types, breeds, shelters, animals]`, in that order — each output is
saved immediately after its own in-memory table is built.  A run that fails
the schema check writes nothing, and a run writes all four outputs iff it
completes; but a run failing after an earlier save leaves those outputs
already replaced (partial output is possible). -/
theorem transform_writes_form_initial_segment (snap : RawSnapshot)
    (ids : Nat → String) (sf : String) (fuel : Nat) :
    (((update_clean_csvs_db_aware snap ids sf fuel).writes).map savedName
      = List.take ((update_clean_csvs_db_aware snap ids sf fuel).writes).length
          ["pet_types", "breeds", "shelters", "animals"]) ∧
    (_require_columns snap = false →
      (update_clean_csvs_db_aware snap ids sf fuel).writes = []) ∧
    ((update_clean_csvs_db_aware snap ids sf fuel).ok = true ↔
      ((update_clean_csvs_db_aware snap ids sf fuel).writes).map savedName
        = ["pet_types", "breeds", "shelters", "animals"]) := by
  unfold update_clean_csvs_db_aware
  by_cases h1 : fuel ≤ 1
  · simp [h1]
  by_cases hs : _require_columns snap
  all_goals by_cases h4 : fuel ≤ 4
  all_goals by_cases h6 : fuel ≤ 6
  all_goals by_cases h8 : fuel ≤ 8
  all_goals by_cases h10 : fuel ≤ 10
  all_goals simp [h1, hs, h4, h6, h8, h10, savedName]

/-- C1 witness: with no injected failure the sample run completes and its
writes are exactly the four outputs in order (both directions of the
completion iff exercised concretely). -/
theorem transform_writes_form_initial_segment_witness :
    ((update_clean_csvs_db_aware sampleSnap sampleIds "s1.csv" 100).writes).map
        savedName = ["pet_types", "breeds", "shelters", "animals"] ∧
    (update_clean_csvs_db_aware sampleSnap sampleIds "s1.csv" 100).ok = true :=
  ⟨(transform_writes_form_initial_segment sampleSnap sampleIds
      "s1.csv" 100).2.2.mp (by decide),
   (transform_writes_form_initial_segment sampleSnap sampleIds
      "s1.csv" 100).2.2.mpr (by decide)⟩

/-- C4 counterexample: a batch with more than one distinct `snapshot_date`
is NOT rejected before the transformation step — the transform runs to
completion on it, reconciling, resolving dimensions, building facts and
(re)writing all four clean outputs; the animals table it writes then carries
two distinct dates for the loader (which is where the rejection actually
happens, after transformation). -/
theorem ambiguous_batch_transforms_counterexample :
    (uniqueDates (animals_df
        (sampleSnapTwoDates.rows.map apply_data_quality_rules)
        sampleIds "s1.csv")).length = 2 ∧
    (update_clean_csvs_db_aware sampleSnapTwoDates sampleIds "s1.csv" 100).ok
      = true ∧
    ((update_clean_csvs_db_aware sampleSnapTwoDates sampleIds
        "s1.csv" 100).writes).map savedName
      = ["pet_types", "breeds", "shelters", "animals"] := by
  decide

set_option maxHeartbeats 2000000 in
/-- C4 (amended): ambiguity is rejected by the incremental loader, before
any destination write: whenever the animals table carries two or more
distinct `snapshot_file` values or two or more distinct `snapshot_date`
values, every loader run fails, performs no write events and leaves the
destination untouched. -/
theorem ambiguous_batch_rejected_by_loader (db : DB) (f : CleanFiles)
    (fuel : Nat) (a : List FactRow) (ha : f.animals = some a)
    (hamb : 2 ≤ (uniqueFiles a).length ∨ 2 ≤ (uniqueDates a).length) :
    (load_incremental db f fuel).db = db ∧
    (load_incremental db f fuel).events = [] ∧
    (load_incremental db f fuel).ok = false := by
  have key : load_incremental db f fuel = ⟨db, [], false⟩ := by
    unfold load_incremental
    rw [ha]
    split
    · rfl
    split
    next h => cases h
    next a' ha' =>
      cases ha'
      split
      · rfl
      split
      next sf hsf =>
        split
        · rfl
        split
        next sd hsd =>
          exfalso
          rcases hamb with h2 | h2
          · rw [hsf] at h2; simp at h2
          · rw [hsd] at h2; simp at h2
        next => rfl
      next => rfl
  rw [key]
  exact ⟨rfl, rfl, rfl⟩

theorem iteSub (c : Bool) (e : WEvent) (l : List WEvent) (hl : [e].Sublist l) :
    (if c then ([] : List WEvent) else [e]).Sublist l := by
  cases c
  · simpa using hl
  · simp

/-- After `mark_snapshot_loaded`, the ledger contains the snapshot file. -/
theorem already_after_mark (db : DB) (sf : String) (sd : Date) :
    snapshot_already_loaded (mark_snapshot_loaded db sf sd) sf = true := by
  unfold mark_snapshot_loaded
  cases h : snapshot_already_loaded db sf
  · simp only [h, Bool.false_eq_true, if_false]
    unfold snapshot_already_loaded
    simp [List.any_append]
  · simpa using h

/-- Characterization of the write phase: it either fails having performed
some order-respecting prefix of the four upserts, leaving the ledger
untouched, or completes, performing the upserts in dimension order and then
the ledger insert as the very last event. -/
theorem load_phase2_spec (db : DB) (ptsf : Option (List TypeRow))
    (brsf : Option (List BreedOut)) (shsf : Option (List ShelterRow))
    (an : List FactRow) (sf : String) (sd : Date) (fuel : Nat) :
    ∃ pre db1,
      pre.Sublist [WEvent.upsertPetTypes, WEvent.upsertBreeds,
        WEvent.upsertShelters, WEvent.upsertAnimals] ∧
      db1.loaded_snapshots = db.loaded_snapshots ∧
      (load_phase2 db ptsf brsf shsf an sf sd fuel = ⟨db1, pre, false⟩ ∨
       load_phase2 db ptsf brsf shsf an sf sd fuel =
         ⟨mark_snapshot_loaded db1 sf sd, pre ++ [WEvent.insertLedger], true⟩) := by
  unfold load_phase2
  by_cases h5 : fuel ≤ 5
  · exact ⟨[], db, by decide, rfl, Or.inl (by simp [h5])⟩
  rcases ptsf with _ | pts
  · exact ⟨[], db, by decide, rfl, Or.inl (by simp [h5])⟩
  have s1 : (if pts.isEmpty then ([] : List WEvent)
      else [WEvent.upsertPetTypes]).Sublist
      [WEvent.upsertPetTypes, WEvent.upsertBreeds,
       WEvent.upsertShelters, WEvent.upsertAnimals] :=
    iteSub _ _ _ (by decide)
  by_cases h6 : fuel ≤ 6
  · exact ⟨(if pts.isEmpty then [] else [WEvent.upsertPetTypes]),
      { db with pet_types := upsert_table db.pet_types (·.type_id) pts },
      s1, rfl, Or.inl (by simp [h5, h6])⟩
  rcases brsf with _ | brs
  · exact ⟨(if pts.isEmpty then [] else [WEvent.upsertPetTypes]),
      { db with pet_types := upsert_table db.pet_types (·.type_id) pts },
      s1, rfl, Or.inl (by simp [h5, h6])⟩
  have s2 : ((if pts.isEmpty then ([] : List WEvent)
        else [WEvent.upsertPetTypes]) ++
      (if brs.isEmpty then ([] : List WEvent)
        else [WEvent.upsertBreeds])).Sublist
      [WEvent.upsertPetTypes, WEvent.upsertBreeds,
       WEvent.upsertShelters, WEvent.upsertAnimals] :=
    (List.Sublist.append
      (iteSub pts.isEmpty WEvent.upsertPetTypes [WEvent.upsertPetTypes]
        (by decide))
      (iteSub brs.isEmpty WEvent.upsertBreeds [WEvent.upsertBreeds]
        (by decide))).trans (by decide)
  by_cases h7 : fuel ≤ 7
  · exact ⟨((if pts.isEmpty then [] else [WEvent.upsertPetTypes]) ++
        (if brs.isEmpty then [] else [WEvent.upsertBreeds])),
      { db with
        pet_types := upsert_table db.pet_types (·.type_id) pts
        breeds := upsert_table db.breeds (·.breed_id) brs },
      s2, rfl, Or.inl (by simp [h5, h6, h7])⟩
  rcases shsf with _ | shs
  · exact ⟨((if pts.isEmpty then [] else [WEvent.upsertPetTypes]) ++
        (if brs.isEmpty then [] else [WEvent.upsertBreeds])),
      { db with
        pet_types := upsert_table db.pet_types (·.type_id) pts
        breeds := upsert_table db.breeds (·.breed_id) brs },
      s2, rfl, Or.inl (by simp [h5, h6, h7])⟩
  have s3 : (((if pts.isEmpty then ([] : List WEvent)
        else [WEvent.upsertPetTypes]) ++
      (if brs.isEmpty then ([] : List WEvent)
        else [WEvent.upsertBreeds])) ++
      (if shs.isEmpty then ([] : List WEvent)
        else [WEvent.upsertShelters])).Sublist
      [WEvent.upsertPetTypes, WEvent.upsertBreeds,
       WEvent.upsertShelters, WEvent.upsertAnimals] :=
    (List.Sublist.append (List.Sublist.append
      (iteSub pts.isEmpty WEvent.upsertPetTypes [WEvent.upsertPetTypes]
        (by decide))
      (iteSub brs.isEmpty WEvent.upsertBreeds [WEvent.upsertBreeds]
        (by decide)))
      (iteSub shs.isEmpty WEvent.upsertShelters [WEvent.upsertShelters]
        (by decide))).trans (by decide)
  by_cases h8 : fuel ≤ 8
  · exact ⟨(((if pts.isEmpty then [] else [WEvent.upsertPetTypes]) ++
        (if brs.isEmpty then [] else [WEvent.upsertBreeds])) ++
        (if shs.isEmpty then [] else [WEvent.upsertShelters])),
      { db with
        pet_types := upsert_table db.pet_types (·.type_id) pts
        breeds := upsert_table db.breeds (·.breed_id) brs
        shelters := upsert_table db.shelters (·.shelter_id) shs },
      s3, rfl, Or.inl (by simp [h5, h6, h7, h8])⟩
  have s4 : ((((if pts.isEmpty then ([] : List WEvent)
        else [WEvent.upsertPetTypes]) ++
      (if brs.isEmpty then ([] : List WEvent)
        else [WEvent.upsertBreeds])) ++
      (if shs.isEmpty then ([] : List WEvent)
        else [WEvent.upsertShelters])) ++
      (if an.isEmpty then ([] : List WEvent)
        else [WEvent.upsertAnimals])).Sublist
      [WEvent.upsertPetTypes, WEvent.upsertBreeds,
       WEvent.upsertShelters, WEvent.upsertAnimals] :=
    (List.Sublist.append (List.Sublist.append (List.Sublist.append
      (iteSub pts.isEmpty WEvent.upsertPetTypes [WEvent.upsertPetTypes]
        (by decide))
      (iteSub brs.isEmpty WEvent.upsertBreeds [WEvent.upsertBreeds]
        (by decide)))
      (iteSub shs.isEmpty WEvent.upsertShelters [WEvent.upsertShelters]
        (by decide)))
      (iteSub an.isEmpty WEvent.upsertAnimals [WEvent.upsertAnimals]
        (by decide))).trans (by decide)
  by_cases h9 : fuel ≤ 9
  · exact ⟨((((if pts.isEmpty then [] else [WEvent.upsertPetTypes]) ++
        (if brs.isEmpty then [] else [WEvent.upsertBreeds])) ++
        (if shs.isEmpty then [] else [WEvent.upsertShelters])) ++
        (if an.isEmpty then [] else [WEvent.upsertAnimals])),
      { db with
        pet_types := upsert_table db.pet_types (·.type_id) pts
        breeds := upsert_table db.breeds (·.breed_id) brs
        shelters := upsert_table db.shelters (·.shelter_id) shs
        animals := upsert_table db.animals (·.pet_id) an },
      s4, rfl, Or.inl (by simp [h5, h6, h7, h8, h9])⟩
  · exact ⟨((((if pts.isEmpty then [] else [WEvent.upsertPetTypes]) ++
        (if brs.isEmpty then [] else [WEvent.upsertBreeds])) ++
        (if shs.isEmpty then [] else [WEvent.upsertShelters])) ++
        (if an.isEmpty then [] else [WEvent.upsertAnimals])),
      { db with
        pet_types := upsert_table db.pet_types (·.type_id) pts
        breeds := upsert_table db.breeds (·.breed_id) brs
        shelters := upsert_table db.shelters (·.shelter_id) shs
        animals := upsert_table db.animals (·.pet_id) an },
      s4, rfl, Or.inr (by simp [h5, h6, h7, h8, h9])⟩

/-- Characterization of a loader run: it fails before any write, or
short-circuits because the snapshot is already in the ledger, or enters the
write phase with the validated snapshot identity. -/
theorem load_incremental_spec (db : DB) (f : CleanFiles) (fuel : Nat) :
    load_incremental db f fuel = ⟨db, [], false⟩ ∨
    (∃ a sf, f.animals = some a ∧ uniqueFiles a = [sf] ∧
      snapshot_already_loaded db sf = true ∧
      load_incremental db f fuel = ⟨db, [], true⟩) ∨
    (∃ a sf sd, f.animals = some a ∧ uniqueFiles a = [sf] ∧
      uniqueDates a = [sd] ∧ snapshot_already_loaded db sf = false ∧
      load_incremental db f fuel =
        load_phase2 db f.pet_types f.breeds f.shelters a sf sd fuel) := by
  unfold load_incremental
  by_cases h1 : fuel ≤ 1
  · exact Or.inl (by simp [h1])
  rcases ha : f.animals with _ | a
  · exact Or.inl (by simp [h1, ha])
  by_cases h2 : fuel ≤ 2
  · exact Or.inl (by simp [h1, h2, ha])
  rcases huf : uniqueFiles a with _ | ⟨sf, _ | _⟩
  · exact Or.inl (by simp [h1, h2, ha, huf])
  · by_cases h3 : fuel ≤ 3
    · exact Or.inl (by simp [h1, h2, h3, ha, huf])
    rcases hud : uniqueDates a with _ | ⟨sd, _ | _⟩
    · exact Or.inl (by simp [h1, h2, h3, ha, huf, hud])
    · by_cases h4 : fuel ≤ 4
      · exact Or.inl (by simp [h1, h2, h3, h4, ha, huf, hud])
      cases hal : snapshot_already_loaded db sf
      · exact Or.inr (Or.inr ⟨a, sf, sd, rfl, huf, hud, hal,
          by simp [h1, h2, h3, h4, ha, huf, hud, hal]⟩)
      · exact Or.inr (Or.inl ⟨a, sf, rfl, huf, hal,
          by simp [h1, h2, h3, h4, ha, huf, hud, hal]⟩)
    · exact Or.inl (by simp [h1, h2, h3, ha, huf, hud])
  · exact Or.inl (by simp [h1, h2, ha, huf])

/-- When the ledger already contains the snapshot file, a loader run leaves
the destination untouched and performs no writes (whether it reaches the
short-circuit, fails an earlier check, or is killed). -/
theorem load_skip_of_already (db : DB) (f : CleanFiles) (fuel : Nat)
    (a : List FactRow) (sf : String) (ha : f.animals = some a)
    (huf : uniqueFiles a = [sf]) (hld : snapshot_already_loaded db sf = true) :
    (load_incremental db f fuel).db = db ∧
    (load_incremental db f fuel).events = [] := by
  rcases load_incremental_spec db f fuel with hcase |
    ⟨a', sf', ha', huf', hld', heq⟩ | ⟨a', sf', sd', ha', huf', hud', hld', heq⟩
  · rw [hcase]; exact ⟨rfl, rfl⟩
  · rw [heq]; exact ⟨rfl, rfl⟩
  · rw [ha] at ha'
    injection ha' with ha''
    subst ha''
    rw [huf] at huf'
    injection huf' with h1 h2
    subst h1
    rw [hld] at hld'
    cases hld'

/-- A successful loader run ends with the snapshot file in the ledger. -/
theorem load_ok_already (db : DB) (f : CleanFiles) (fuel : Nat)
    (hok : (load_incremental db f fuel).ok = true) :
    ∃ a sf, f.animals = some a ∧ uniqueFiles a = [sf] ∧
      snapshot_already_loaded (load_incremental db f fuel).db sf = true := by
  rcases load_incremental_spec db f fuel with hcase |
    ⟨a, sf, ha, huf, hld, heq⟩ | ⟨a, sf, sd, ha, huf, hud, hld, heq⟩
  · rw [hcase] at hok; cases hok
  · exact ⟨a, sf, ha, huf, by rw [heq]; exact hld⟩
  · rcases load_phase2_spec db f.pet_types f.breeds f.shelters a sf sd fuel with
      ⟨pre, db1, hsub, hledg, hp2 | hp2⟩
    · rw [heq, hp2] at hok; cases hok
    · refine ⟨a, sf, ha, huf, ?_⟩
      rw [heq, hp2]
      exact already_after_mark db1 sf sd

/-- C2: a batch whose `snapshot_file` is already in the ledger causes no
writes at all — the destination state is unchanged and no write event is
emitted; consequently, re-running the loader on the same clean outputs after
any successful run is a no-op. -/
theorem already_loaded_skip_and_idempotent (db : DB) (f : CleanFiles)
    (fuel fuel2 : Nat) :
    (∀ a sf, f.animals = some a → uniqueFiles a = [sf] →
      snapshot_already_loaded db sf = true →
      (load_incremental db f fuel).db = db ∧
      (load_incremental db f fuel).events = []) ∧
    ((load_incremental db f fuel).ok = true →
      (load_incremental (load_incremental db f fuel).db f fuel2).db
          = (load_incremental db f fuel).db ∧
      (load_incremental (load_incremental db f fuel).db f fuel2).events
          = []) := by
  constructor
  · intro a sf ha huf hld
    exact load_skip_of_already db f fuel a sf ha huf hld
  · intro hok
    rcases load_ok_already db f fuel hok with ⟨a, sf, ha, huf, hld⟩
    exact load_skip_of_already _ f fuel2 a sf ha huf hld

/-- C2 witness: with `s1.csv` already in the ledger, a second run on the
same outputs changes nothing and emits no write events. -/
theorem already_loaded_skip_and_idempotent_witness :
    (load_incremental sampleDBLoaded sampleFiles 50).db = sampleDBLoaded ∧
    (load_incremental sampleDBLoaded sampleFiles 50).events = [] :=
  (already_loaded_skip_and_idempotent sampleDBLoaded sampleFiles 50 50).1
    (animals_df samplePets sampleIds "s1.csv") "s1.csv" rfl (by decide)
    (by decide)

/-- C3: the ledger row is the commit point of a snapshot load.  A run that
does not finish leaves the ledger exactly as it was; a ledger insert occurs
only in a finished run, as the very last event, strictly after whatever
dimension and fact upserts were performed, and those upserts occur in
dimension order (pet_types, breeds, shelters) followed by the fact table. -/
theorem ledger_is_commit_point (db : DB) (f : CleanFiles) (fuel : Nat) :
    ((load_incremental db f fuel).ok = false →
      (load_incremental db f fuel).db.loaded_snapshots
        = db.loaded_snapshots) ∧
    (WEvent.insertLedger ∈ (load_incremental db f fuel).events →
      (load_incremental db f fuel).ok = true ∧
      ∃ pre, (load_incremental db f fuel).events
            = pre ++ [WEvent.insertLedger] ∧
        WEvent.insertLedger ∉ pre ∧
        pre.Sublist [WEvent.upsertPetTypes, WEvent.upsertBreeds,
          WEvent.upsertShelters, WEvent.upsertAnimals]) := by
  rcases load_incremental_spec db f fuel with hcase |
    ⟨a, sf, ha, huf, hld, heq⟩ | ⟨a, sf, sd, ha, huf, hud, hld, heq⟩
  · rw [hcase]
    exact ⟨fun _ => rfl, fun hmem => absurd hmem (by simp)⟩
  · rw [heq]
    exact ⟨fun _ => rfl, fun hmem => absurd hmem (by simp)⟩
  · rw [heq]
    rcases load_phase2_spec db f.pet_types f.breeds f.shelters a sf sd fuel with
      ⟨pre, db1, hsub, hledg, hp2 | hp2⟩
    · rw [hp2]
      refine ⟨fun _ => hledg, fun hmem => ?_⟩
      exact absurd (hsub.subset hmem) (by decide)
    · rw [hp2]
      constructor
      · intro h; cases h
      · intro hmem
        refine ⟨rfl, pre, rfl, ?_, hsub⟩
        intro hpre
        exact absurd (hsub.subset hpre) (by decide)

/-- C3 witness: a run killed after the shelters upsert leaves the (empty)
ledger untouched, and the completed sample run does insert the ledger row
(so the commit-point shape applies to it). -/
theorem ledger_is_commit_point_witness :
    (load_incremental emptyDB sampleFiles 7).db.loaded_snapshots
        = emptyDB.loaded_snapshots ∧
    (load_incremental emptyDB sampleFiles 100).ok = true :=
  ⟨(ledger_is_commit_point emptyDB sampleFiles 7).1 (by decide),
   ((ledger_is_commit_point emptyDB sampleFiles 100).2 (by decide)).1⟩

/-- C4 witness (amended claim): the loader, given the two-date batch's
outputs, fails without touching the destination. -/
theorem ambiguous_batch_rejected_by_loader_witness :
    (load_incremental emptyDB sampleFilesTwoDates 100).db = emptyDB ∧
    (load_incremental emptyDB sampleFilesTwoDates 100).events = [] ∧
    (load_incremental emptyDB sampleFilesTwoDates 100).ok = false :=
  ambiguous_batch_rejected_by_loader emptyDB sampleFilesTwoDates 100 _ rfl
    (Or.inr (by decide))
